import Mathlib

/-!
Shallow embedding of the todo CRUD service in `src/main.rs`.

The service is a thin layer over five parameterized SQL statements on a
single table `todos(id serial primary key, description text, completed
boolean)`.  We model the durable state as the list of rows together with
the sequence value the database would assign to the next inserted row.
Each handler translates to a pure function from the request parameters and
the database state to a result plus the new state.
-/

namespace TodoApp

/-- `struct Todo { id: i32, description: String, completed: bool }`
(src/main.rs, lines 40-44). -/
structure Todo where
  id : Int
  description : String
  completed : Bool
deriving Repr, DecidableEq

/-- Database state: the rows of the `todos` table (in arbitrary physical
order) and the next value of the `id` serial sequence. -/
structure Db where
  rows : List Todo
  nextId : Int
deriving Repr, DecidableEq

/-- Errors produced by the sqlx statements: `fetch_one` on an empty result
set yields `RowNotFound`; any other database failure carries its message. -/
inductive DbError where
  | rowNotFound
  | other (msg : String)
deriving Repr, DecidableEq

/-- `error.to_string()` for the modelled errors.  sqlx renders
`RowNotFound` as the message below. -/
def DbError.message : DbError → String
  | .rowNotFound => "no rows returned by a query that expected to return at least one row"
  | .other msg => msg

/-- `ORDER BY id`: sort the physical rows ascending by id. -/
def sortById (rows : List Todo) : List Todo :=
  rows.mergeSort (fun a b => a.id ≤ b.id)

/-- `struct ListOptions { offset: usize, limit: usize }`
(src/main.rs, lines 47-51). -/
structure ListOptions where
  offset : Nat
  limit : Nat
deriving Repr, DecidableEq

/-- The derived serde `Deserialize` for `ListOptions` has no
`#[serde(default)]`, so the query string must supply both fields;
a missing field is a deserialization error (the derived `Default` impl is
not consulted by serde), as is a value outside the `usize` range.
`none` models an absent query parameter. -/
def parseListOptions (offset limit : Option Nat) : Option ListOptions :=
  match offset, limit with
  | some o, some l => if o < 2 ^ 64 ∧ l < 2 ^ 64 then some ⟨o, l⟩ else none
  | _, _ => none

/-- The `usize as i64` cast of `get_todos` (src/main.rs, lines 66-67):
two's-complement wrap, so values in `[2^63, 2^64)` become negative. -/
def asI64 (n : Nat) : Int :=
  if n % 2 ^ 64 < 2 ^ 63 then (n % 2 ^ 64 : Nat) else (n % 2 ^ 64 : Nat) - 2 ^ 64

/-- The SELECT of `get_todos`:
`SELECT id, description, completed FROM todos ORDER BY id OFFSET $1 LIMIT $2`
with `$1 = options.offset as i64` and `$2 = options.limit as i64`
(src/main.rs, lines 57-73).  A parameter that wraps negative through the
cast makes Postgres reject the query at executor startup (the offset is
checked first, and even when the limit is 0); otherwise OFFSET skips
before LIMIT takes, and `LIMIT 0` returns zero rows. -/
def listTodos (db : Db) (offset limit : Nat) : Except DbError (List Todo) :=
  if asI64 offset < 0 then .error (.other "OFFSET must not be negative")
  else if asI64 limit < 0 then .error (.other "LIMIT must not be negative")
  else .ok (((sortById db.rows).drop (asI64 offset).toNat).take (asI64 limit).toNat)

/-- The INSERT of `add_todo`:
`INSERT INTO todos (description, completed) VALUES ($1, $2) RETURNING ...`
with `$2 = false` (src/main.rs, lines 85-95).  The database assigns the
next serial id; the new row is returned. -/
def insertTodo (description : String) (db : Db) : Todo × Db :=
  let t : Todo := ⟨db.nextId, description, false⟩
  (t, ⟨db.rows ++ [t], db.nextId + 1⟩)

/-- The SELECT of `get_todo`:
`SELECT id, description, completed FROM todos WHERE id = $1` run through
`fetch_one` (src/main.rs, lines 106-117): the first matching row, or
`RowNotFound` when no row matches. -/
def getTodo (id : Int) (db : Db) : Except DbError Todo :=
  match db.rows.find? (fun t => t.id == id) with
  | some t => .ok t
  | none => .error .rowNotFound

/-- The UPDATE of `update_todo`:
`UPDATE todos SET description = $1, completed = $2 WHERE id = $3 RETURNING ...`
with `$1 = update_todo.description.unwrap_or("".to_string())` and
`$2 = update_todo.completed.unwrap_or(false)` (src/main.rs, lines 134-145).
Both columns are written unconditionally on every matching row; `fetch_one`
on the RETURNING set yields `RowNotFound` when no row matched, and the
table is unchanged in that case. -/
def updateTodo (id : Int) (description : Option String) (completed : Option Bool)
    (db : Db) : Except DbError Todo × Db :=
  let newDesc := description.getD ""
  let newComp := completed.getD false
  if db.rows.any (fun t => t.id == id) then
    (.ok ⟨id, newDesc, newComp⟩,
     ⟨db.rows.map (fun t => if t.id == id then ⟨t.id, newDesc, newComp⟩ else t),
      db.nextId⟩)
  else
    (.error .rowNotFound, db)

/-- The DELETE of `delete_todo`:
`DELETE FROM todos WHERE id = $1 RETURNING id, description, completed`
(src/main.rs, lines 157-166): removes every matching row, returning the
deleted row's prior values; `fetch_one` yields `RowNotFound` when no row
matched, and the table is unchanged in that case. -/
def deleteTodo (id : Int) (db : Db) : Except DbError Todo × Db :=
  match db.rows.find? (fun t => t.id == id) with
  | some t => (.ok t, ⟨db.rows.filter (fun r => !(r.id == id)), db.nextId⟩)
  | none => (.error .rowNotFound, db)

/-- `internal_error` (src/main.rs, lines 176-182): every storage error,
not-found included, is mapped to HTTP 500 with the error's message text
(after being logged server-side via `tracing::error!`). -/
def internalError (e : DbError) : Nat × String :=
  (500, e.message)

/-- The `get_todos` handler at the HTTP level: axum's `Query` extractor
deserializes the query string before the handler body runs; a failure is a
400 response.  A storage error — including Postgres rejecting a wrapped
negative OFFSET/LIMIT — becomes the `internal_error` 500 response; success
is a 200 with the rows. -/
def getTodosRoute (offset limit : Option Nat) (db : Db) :
    Except (Nat × String) (List Todo) :=
  match parseListOptions offset limit with
  | some opts =>
    match listTodos db opts.offset opts.limit with
    | .ok ts => .ok ts
    | .error e => .error (internalError e)
  | none => .error (400, "Failed to deserialize query string")

/-- `struct CreateTodo { description: String }` (src/main.rs, lines 77-79):
the create request model carries only the description. -/
structure CreateTodo where
  description : String
deriving Repr, DecidableEq

/-- A POST /todos body as the client may send it: a description plus a
possibly supplied `completed` field. -/
structure CreateBody where
  description : String
  completed : Option Bool
deriving Repr, DecidableEq

/-- serde's derived `Deserialize` for `CreateTodo` ignores unknown fields
(no `deny_unknown_fields`), so a supplied `completed` is dropped. -/
def parseCreateTodo (body : CreateBody) : CreateTodo :=
  ⟨body.description⟩

/-- The `add_todo` handler at the HTTP level: parse the body into
`CreateTodo`, run the INSERT, answer with the created row. -/
def addTodoRoute (body : CreateBody) (db : Db) : Todo × Db :=
  insertTodo (parseCreateTodo body).description db

/-- The `get_todo` handler at the HTTP level: a storage error (including
not-found) becomes the `internal_error` 500 response. -/
def getTodoRoute (id : Int) (db : Db) : Except (Nat × String) Todo :=
  match getTodo id db with
  | .ok t => .ok t
  | .error e => .error (internalError e)

end TodoApp

namespace TodoApp

/-- Rows whose id differs from the searched id never satisfy the lookup
predicate, so a lookup over such a list fails. -/
theorem find_none_of_all_ne (rows : List Todo) (id : Int)
    (h : ∀ t ∈ rows, t.id ≠ id) :
    rows.find? (fun t => t.id == id) = none := by
  rw [List.find?_eq_none]
  intro t ht
  simpa using h t ht

/-- With pairwise-distinct ids, the lookup finds exactly the member row. -/
theorem find_eq_of_mem_nodup (rows : List Todo) (t : Todo)
    (hmem : t ∈ rows) (hnd : (rows.map Todo.id).Nodup) :
    rows.find? (fun r => r.id == t.id) = some t := by
  induction rows with
  | nil => cases hmem
  | cons r rs ih =>
    simp only [List.map_cons, List.nodup_cons] at hnd
    rcases List.mem_cons.mp hmem with heq | hmem'
    · subst heq
      simp [List.find?_cons]
    · have hne : r.id ≠ t.id := by
        intro h
        exact hnd.1 (h ▸ List.mem_map_of_mem Todo.id hmem')
      have hb : (r.id == t.id) = false := by simpa using hne
      simp only [List.find?_cons, hb]
      exact ih hmem' hnd.2

end TodoApp

namespace TodoApp

/-- The cast is the identity below `2^63`. -/
theorem asI64_of_lt (n : Nat) (h : n < 2 ^ 63) : asI64 n = (n : Int) := by
  unfold asI64
  have h64 : n < 2 ^ 64 := lt_trans h (by norm_num)
  rw [Nat.mod_eq_of_lt h64, if_pos h]

/-- The cast wraps values in `[2^63, 2^64)` to negative integers. -/
theorem asI64_neg (n : Nat) (h1 : 2 ^ 63 ≤ n) (h2 : n < 2 ^ 64) : asI64 n < 0 := by
  unfold asI64
  rw [Nat.mod_eq_of_lt h2, if_neg (by omega)]
  have : (n : Int) < 2 ^ 64 := by exact_mod_cast h2
  omega

/-- Below the wrap threshold the listing succeeds with the paginated
sorted rows. -/
theorem listTodos_ok (db : Db) (offset limit : Nat)
    (ho : offset < 2 ^ 63) (hl : limit < 2 ^ 63) :
    listTodos db offset limit = .ok (((sortById db.rows).drop offset).take limit) := by
  unfold listTodos
  rw [asI64_of_lt offset ho, asI64_of_lt limit hl,
    if_neg (not_lt.mpr (Int.natCast_nonneg offset)),
    if_neg (not_lt.mpr (Int.natCast_nonneg limit))]
  simp

/-- An offset that wraps negative is rejected by Postgres. -/
theorem listTodos_offset_err (db : Db) (offset limit : Nat)
    (h1 : 2 ^ 63 ≤ offset) (h2 : offset < 2 ^ 64) :
    listTodos db offset limit = .error (.other "OFFSET must not be negative") := by
  unfold listTodos
  rw [if_pos (asI64_neg offset h1 h2)]

/-- A limit that wraps negative is rejected by Postgres (given a
non-wrapping offset, which Postgres checks first). -/
theorem listTodos_limit_err (db : Db) (offset limit : Nat)
    (ho : offset < 2 ^ 63) (h1 : 2 ^ 63 ≤ limit) (h2 : limit < 2 ^ 64) :
    listTodos db offset limit = .error (.other "LIMIT must not be negative") := by
  unfold listTodos
  rw [asI64_of_lt offset ho,
    if_neg (not_lt.mpr (Int.natCast_nonneg offset)),
    if_pos (asI64_neg limit h1 h2)]

/-- C6 counterexample: with `limit = 0` but an offset of `2^63`, the
`usize as i64` cast wraps the offset negative and Postgres rejects the
query — the program answers with a storage error, not an empty sequence. -/
theorem list_limit_zero_offset_wrap :
    listTodos ⟨[⟨1, "a", false⟩], 2⟩ (2 ^ 63) 0 =
      .error (.other "OFFSET must not be negative") :=
  listTodos_offset_err ⟨[⟨1, "a", false⟩], 2⟩ (2 ^ 63) 0 (le_refl _) (by norm_num)

/-- C6 (amended): listing with `limit = 0` yields the empty sequence for
every table and every offset below `2^63` — offsets at or above `2^63`
wrap negative through the `usize as i64` cast and fail instead. -/
theorem list_limit_zero_empty (db : Db) (offset : Nat) (h : offset < 2 ^ 63) :
    listTodos db offset 0 = .ok [] := by
  rw [listTodos_ok db offset 0 h (by norm_num)]
  simp

/-- Closed instance of `list_limit_zero_empty` at a concrete table. -/
theorem list_limit_zero_empty_witness :
    listTodos ⟨[⟨1, "a", false⟩], 2⟩ 5 0 = .ok [] :=
  list_limit_zero_empty ⟨[⟨1, "a", false⟩], 2⟩ 5 (by norm_num)

/-- C10: any `completed` field in a POST /todos body is ignored — the
create request model carries only the description, and the created Todo
has `completed = false` even when the body supplies `completed = true`. -/
theorem create_ignores_completed (d : String) (c : Option Bool) (db : Db) :
    (addTodoRoute ⟨d, c⟩ db).1.completed = false ∧
    (addTodoRoute ⟨d, c⟩ db).1.description = d := by
  exact ⟨rfl, rfl⟩

/-- C3: inserting a description and then fetching by the returned id
yields a Todo with the same description and `completed = false`, provided
every existing row's id precedes the serial sequence value. -/
theorem insert_then_get (db : Db) (d : String)
    (h : ∀ t ∈ db.rows, t.id < db.nextId) :
    (insertTodo d db).1.description = d ∧
    (insertTodo d db).1.completed = false ∧
    getTodo (insertTodo d db).1.id (insertTodo d db).2 = .ok (insertTodo d db).1 := by
  refine ⟨rfl, rfl, ?_⟩
  simp only [insertTodo, getTodo, List.find?_append]
  have hnone : db.rows.find? (fun t => t.id == db.nextId) = none := by
    apply find_none_of_all_ne
    intro t ht
    exact Int.ne_of_lt (h t ht)
  rw [hnone]
  simp [List.find?_cons]

/-- Closed instance of `insert_then_get` at a concrete table. -/
theorem insert_then_get_witness :
    (insertTodo "buy milk" ⟨[⟨1, "a", false⟩], 2⟩).1.description = "buy milk" ∧
    (insertTodo "buy milk" ⟨[⟨1, "a", false⟩], 2⟩).1.completed = false ∧
    getTodo (insertTodo "buy milk" ⟨[⟨1, "a", false⟩], 2⟩).1.id
      (insertTodo "buy milk" ⟨[⟨1, "a", false⟩], 2⟩).2 =
      .ok (insertTodo "buy milk" ⟨[⟨1, "a", false⟩], 2⟩).1 :=
  insert_then_get ⟨[⟨1, "a", false⟩], 2⟩ "buy milk" (by decide)

/-- C4: after a successful delete of an id, fetching that id is a
not-found error. -/
theorem delete_then_get_notfound (db db' : Db) (id : Int) (t : Todo)
    (h : deleteTodo id db = (.ok t, db')) :
    getTodo id db' = .error .rowNotFound := by
  unfold deleteTodo at h
  cases hf : db.rows.find? (fun r => r.id == id) with
  | none => rw [hf] at h; cases h
  | some u =>
    rw [hf] at h
    cases h
    unfold getTodo
    rw [find_none_of_all_ne]
    intro r hr
    have := (List.mem_filter.mp hr).2
    simpa using this

/-- Closed instance of `delete_then_get_notfound` at a concrete table. -/
theorem delete_then_get_notfound_witness :
    getTodo 1 ⟨[], 2⟩ = .error .rowNotFound :=
  delete_then_get_notfound ⟨[⟨1, "a", false⟩], 2⟩ ⟨[], 2⟩ 1 ⟨1, "a", false⟩ rfl

end TodoApp

namespace TodoApp

/-- Looking up the updated id after mapping the update over the rows finds
the fully rewritten row, whenever some row matched. -/
theorem find_update_map (rows : List Todo) (id : Int) (nd : String) (nc : Bool)
    (h : rows.any (fun t => t.id == id) = true) :
    (rows.map (fun t => if t.id == id then ⟨t.id, nd, nc⟩ else t)).find?
      (fun r => r.id == id) = some ⟨id, nd, nc⟩ := by
  induction rows with
  | nil => cases h
  | cons r rs ih =>
    by_cases hr : (r.id == id) = true
    · have hid : r.id = id := by simpa using hr
      simp [List.find?_cons, hr, hid]
    · have hr' : (r.id == id) = false := by simpa using hr
      have h' : rs.any (fun t => t.id == id) = true := by
        simpa [List.any_cons, hr'] using h
      simp only [List.map_cons, hr', Bool.false_eq_true, if_false, List.find?_cons]
      exact ih h'

/-- C1: an update of an existing id writes both columns unconditionally,
replacing an absent description with the empty string and an absent
completed with false; the returned Todo is the full new row, and fetching
the id afterwards sees exactly that row. -/
theorem update_absent_defaults (db : Db) (id : Int) (d : Option String) (c : Option Bool)
    (h : db.rows.any (fun t => t.id == id) = true) :
    (updateTodo id d c db).1 = .ok ⟨id, d.getD "", c.getD false⟩ ∧
    getTodo id (updateTodo id d c db).2 = .ok ⟨id, d.getD "", c.getD false⟩ := by
  constructor
  · simp [updateTodo, h]
  · simp only [updateTodo, h, if_true]
    unfold getTodo
    rw [find_update_map db.rows id (d.getD "") (c.getD false) h]

/-- Closed instance of `update_absent_defaults`: updating id 1 with both
fields absent resets the row to empty description and false. -/
theorem update_absent_defaults_witness :
    (updateTodo 1 none none ⟨[⟨1, "buy milk", true⟩], 2⟩).1 = .ok ⟨1, "", false⟩ ∧
    getTodo 1 (updateTodo 1 none none ⟨[⟨1, "buy milk", true⟩], 2⟩).2 =
      .ok ⟨1, "", false⟩ :=
  update_absent_defaults ⟨[⟨1, "buy milk", true⟩], 2⟩ 1 none none (by decide)

/-- C8: deleting an existing id returns exactly the row's field values
from immediately before the deletion (ids are unique under the primary
key), and removes it from the table. -/
theorem delete_returns_prior (db : Db) (t : Todo)
    (hmem : t ∈ db.rows) (hnd : (db.rows.map Todo.id).Nodup) :
    deleteTodo t.id db =
      (.ok t, ⟨db.rows.filter (fun r => !(r.id == t.id)), db.nextId⟩) := by
  unfold deleteTodo
  rw [find_eq_of_mem_nodup db.rows t hmem hnd]

/-- Closed instance of `delete_returns_prior` at a concrete table. -/
theorem delete_returns_prior_witness :
    deleteTodo (2 : Int) ⟨[⟨1, "a", false⟩, ⟨2, "b", true⟩], 3⟩ =
      (.ok ⟨2, "b", true⟩, ⟨[⟨1, "a", false⟩], 3⟩) := by
  have h := delete_returns_prior ⟨[⟨1, "a", false⟩, ⟨2, "b", true⟩], 3⟩ ⟨2, "b", true⟩
    (by simp) (by simp)
  simpa using h

/-- C5: a by-id operation on an id with zero matching rows fails with the
row-not-found storage error, the table is unchanged by the failure, and
the handler surfaces every storage error — not-found included — as HTTP
500 carrying the error's message text. -/
theorem byid_notfound_collapsed (db : Db) (id : Int) (d : Option String) (c : Option Bool)
    (h : ∀ t ∈ db.rows, t.id ≠ id) :
    getTodo id db = .error .rowNotFound ∧
    updateTodo id d c db = (.error .rowNotFound, db) ∧
    deleteTodo id db = (.error .rowNotFound, db) ∧
    getTodoRoute id db = .error (500, DbError.message .rowNotFound) ∧
    ∀ e : DbError, internalError e = (500, e.message) := by
  have hfind : db.rows.find? (fun t => t.id == id) = none :=
    find_none_of_all_ne db.rows id h
  have hany : db.rows.any (fun t => t.id == id) = false := by
    rw [List.any_eq_false]
    intro t ht
    simpa using h t ht
  have hget : getTodo id db = .error .rowNotFound := by
    unfold getTodo
    rw [hfind]
  refine ⟨hget, ?_, ?_, ?_, fun e => rfl⟩
  · simp [updateTodo, hany]
  · unfold deleteTodo
    rw [hfind]
  · unfold getTodoRoute
    rw [hget]
    rfl

/-- Closed instance of `byid_notfound_collapsed` at a concrete table and
an absent id. -/
theorem byid_notfound_collapsed_witness :
    getTodo 2 ⟨[⟨1, "a", false⟩], 2⟩ = .error .rowNotFound ∧
    updateTodo 2 none none ⟨[⟨1, "a", false⟩], 2⟩ =
      (.error .rowNotFound, ⟨[⟨1, "a", false⟩], 2⟩) ∧
    deleteTodo 2 ⟨[⟨1, "a", false⟩], 2⟩ =
      (.error .rowNotFound, ⟨[⟨1, "a", false⟩], 2⟩) ∧
    getTodoRoute 2 ⟨[⟨1, "a", false⟩], 2⟩ =
      .error (500, DbError.message .rowNotFound) :=
  have h := byid_notfound_collapsed ⟨[⟨1, "a", false⟩], 2⟩ 2 none none (by decide)
  ⟨h.1, h.2.1, h.2.2.1, h.2.2.2.1⟩

end TodoApp

namespace TodoApp

/-- The per-row rewrite of the UPDATE statement never changes a row's id. -/
theorem update_row_id_preserved (id : Int) (nd : String) (nc : Bool) (t : Todo) :
    (if t.id == id then (⟨t.id, nd, nc⟩ : Todo) else t).id = t.id := by
  by_cases h : (t.id == id) = true <;> simp [h]

/-- C9: a successful update touches only the matching row — every row keeps
its id at its position, and every row whose id differs from the updated id
is exactly as it was before; the returned Todo carries the requested id. -/
theorem update_frame (db db' : Db) (id : Int) (d : Option String) (c : Option Bool)
    (todo : Todo) (h : updateTodo id d c db = (.ok todo, db')) :
    todo.id = id ∧
    db'.rows.length = db.rows.length ∧
    (∀ i : Nat, (db'.rows[i]?).map Todo.id = (db.rows[i]?).map Todo.id) ∧
    (∀ i : Nat, ∀ t : Todo, db.rows[i]? = some t → t.id ≠ id →
      db'.rows[i]? = some t) := by
  unfold updateTodo at h
  by_cases hany : db.rows.any (fun t => t.id == id) = true
  · rw [if_pos hany] at h
    rw [Prod.mk.injEq] at h
    obtain ⟨hok, hdb⟩ := h
    have htodo : todo = ⟨id, d.getD "", c.getD false⟩ := (Except.ok.inj hok).symm
    subst htodo
    subst hdb
    refine ⟨rfl, by simp, ?_, ?_⟩
    · intro i
      simp only [List.getElem?_map, Option.map_map]
      cases db.rows[i]? with
      | none => rfl
      | some t =>
        by_cases hc : t.id = id <;> simp [Function.comp, hc]
    · intro i t ht hne
      have hb : (t.id == id) = false := by simpa using hne
      simp [ht, hb]
      exact fun hc => absurd hc hne
  · rw [if_neg hany] at h
    rw [Prod.mk.injEq] at h
    cases h.1
/-- Closed instance of `update_frame`: updating id 1 leaves the row with
id 2 untouched. -/
theorem update_frame_witness :
    (⟨1, "x", false⟩ : Todo).id = 1 :=
  (update_frame ⟨[⟨1, "a", true⟩, ⟨2, "b", false⟩], 3⟩
    ⟨[⟨1, "x", false⟩, ⟨2, "b", false⟩], 3⟩ 1 (some "x") none ⟨1, "x", false⟩ rfl).1

/-- C7 counterexample: a limit of `2^63` wraps negative through the
`usize as i64` cast and the listing fails with a storage error instead of
returning a sequence of rows. -/
theorem list_limit_wrap_errors :
    listTodos ⟨[], 1⟩ 0 (2 ^ 63) = .error (.other "LIMIT must not be negative") :=
  listTodos_limit_err ⟨[], 1⟩ 0 (2 ^ 63) (by norm_num) (le_refl _) (by norm_num)

/-- C7 (amended): for offset and limit below `2^63` the listing succeeds
and is the id-sorted table with the first `offset` rows skipped and at
most `limit` rows taken; the sorted table is ascending by id and a
permutation of the physical rows, and the listing itself is ascending by
id.  Offsets or limits in `[2^63, 2^64)` wrap negative through the
`usize as i64` cast and the operation fails instead. -/
theorem list_sorted_pagination (db : Db) (offset limit : Nat)
    (ho : offset < 2 ^ 63) (hl : limit < 2 ^ 63) :
    listTodos db offset limit = .ok (((sortById db.rows).drop offset).take limit) ∧
    List.Pairwise (fun a b : Todo => a.id ≤ b.id) (sortById db.rows) ∧
    (sortById db.rows).Perm db.rows ∧
    List.Pairwise (fun a b : Todo => a.id ≤ b.id)
      (((sortById db.rows).drop offset).take limit) := by
  have hsorted : List.Pairwise (fun a b : Todo => a.id ≤ b.id) (sortById db.rows) := by
    have hp := @List.sorted_mergeSort Todo
      (fun a b : Todo => a.id ≤ b.id)
      (fun a b c hab hbc => by
        simp only [decide_eq_true_eq] at *
        exact le_trans hab hbc)
      (fun a b => by
        simp only [Bool.or_eq_true, decide_eq_true_eq]
        exact Int.le_total a.id b.id)
      db.rows
    exact hp.imp (fun hab => by simpa using hab)
  refine ⟨listTodos_ok db offset limit ho hl, hsorted,
    List.mergeSort_perm db.rows _, ?_⟩
  have hsub : (((sortById db.rows).drop offset).take limit).Sublist (sortById db.rows) :=
    (List.take_sublist _ _).trans (List.drop_sublist _ _)
  exact List.Pairwise.sublist hsub hsorted

/-- Closed instance of `list_sorted_pagination` at a concrete table. -/
theorem list_sorted_pagination_witness :
    listTodos ⟨[⟨2, "b", true⟩, ⟨1, "a", false⟩], 3⟩ 1 1 =
      .ok (((sortById [⟨2, "b", true⟩, ⟨1, "a", false⟩]).drop 1).take 1) :=
  (list_sorted_pagination ⟨[⟨2, "b", true⟩, ⟨1, "a", false⟩], 3⟩ 1 1
    (by norm_num) (by norm_num)).1

/-- C2 counterexample: a GET /todos request with neither query parameter is
not answered 200 — query deserialization fails and the response is a 400. -/
theorem getTodos_no_params_rejected :
    (getTodosRoute none none ⟨[], 1⟩).isOk = false ∧
    getTodosRoute none none ⟨[], 1⟩ =
      .error (400, "Failed to deserialize query string") :=
  ⟨rfl, rfl⟩

/-- C2 as amended: `offset` and `limit` carry no defaults — a request
missing either parameter fails query-string deserialization and is
answered 400; a request supplying both with values below `2^63` is
answered 200 with the listing, while a supplied value in `[2^63, 2^64)`
wraps negative through the `usize as i64` cast and is answered 500. -/
theorem getTodos_params_required (db : Db) (o l : Option Nat) :
    ((o = none ∨ l = none) → getTodosRoute o l db =
      .error (400, "Failed to deserialize query string")) ∧
    (∀ o' l', o = some o' → l = some l' → o' < 2 ^ 63 → l' < 2 ^ 63 →
      getTodosRoute o l db = .ok (((sortById db.rows).drop o').take l')) ∧
    (∀ o' l', o = some o' → l = some l' → o' < 2 ^ 64 → l' < 2 ^ 64 →
      2 ^ 63 ≤ o' ∨ 2 ^ 63 ≤ l' →
      ∃ msg, getTodosRoute o l db = .error (500, msg)) := by
  refine ⟨?_, ?_, ?_⟩
  · intro h
    match o, l with
    | none, _ => rfl
    | some _, none => rfl
    | some _, some _ =>
      rcases h with h | h <;> cases h
  · intro o' l' ho hl hob hlb
    subst ho
    subst hl
    have h1 : o' < 2 ^ 64 := lt_trans hob (by norm_num)
    have h2 : l' < 2 ^ 64 := lt_trans hlb (by norm_num)
    have hp : parseListOptions (some o') (some l') = some ⟨o', l'⟩ := by
      simp only [parseListOptions]
      rw [if_pos ⟨h1, h2⟩]
    unfold getTodosRoute
    simp only [hp]
    rw [listTodos_ok db o' l' hob hlb]
  · intro o' l' ho hl hob hlb hwrap
    subst ho
    subst hl
    have hp : parseListOptions (some o') (some l') = some ⟨o', l'⟩ := by
      simp only [parseListOptions]
      rw [if_pos ⟨hob, hlb⟩]
    rcases hwrap with hw | hw
    · refine ⟨"OFFSET must not be negative", ?_⟩
      unfold getTodosRoute
      simp only [hp]
      rw [listTodos_offset_err db o' l' hw hob]
      rfl
    · by_cases hoc : o' < 2 ^ 63
      · refine ⟨"LIMIT must not be negative", ?_⟩
        unfold getTodosRoute
        simp only [hp]
        rw [listTodos_limit_err db o' l' hoc hw hlb]
        rfl
      · refine ⟨"OFFSET must not be negative", ?_⟩
        unfold getTodosRoute
        simp only [hp]
        rw [listTodos_offset_err db o' l' (le_of_not_lt hoc) hob]
        rfl

/-- Closed instance of `getTodos_params_required`: with both parameters
supplied and below the wrap threshold the request succeeds. -/
theorem getTodos_params_required_witness :
    getTodosRoute (some 2) (some 5) ⟨[], 7⟩ =
      .ok (((sortById ([] : List Todo)).drop 2).take 5) :=
  (getTodos_params_required ⟨[], 7⟩ (some 2) (some 5)).2.1 2 5 rfl rfl
    (by norm_num) (by norm_num)

end TodoApp
